import Mathlib

/-!
Shallow embedding of the decision logic of the `web-security-suite`
browser extension (files `background.js` and `content.js`).

The DOM, the network and the `chrome.*` APIs are external collaborators:
they are modelled as explicit arguments (strings extracted from the page,
an oracle for the browser URL parser, a tri-state outcome for the
reputation lookup).  Every function below is a direct translation of the
corresponding JavaScript function; JavaScript strings are modelled as
Lean `String` (`List Char` underneath), and the ASCII-only fragment of
`toLowerCase`/`trim`/`includes`/`replace` that the source exercises is
spelled out explicitly.
-/

namespace WebSec

/-- Whitespace characters recognised by the embedded `trim` (the ASCII
whitespace JavaScript `String.prototype.trim` removes). -/
def isJsWs (c : Char) : Bool :=
  c == ' ' || c == '\t' || c == '\n' || c == '\r' || c == '\x0b' || c == '\x0c'

/-- Does the list `hay` start with the list `pat`?  (Embeds the anchored
comparison used by substring search.) -/
def listStartsWith : List Char → List Char → Bool
  | _, [] => true
  | [], _ :: _ => false
  | a :: hay, b :: pat => a == b && listStartsWith hay pat

/-- JavaScript `hay.includes(pat)`: is `pat` a contiguous substring of
`hay`? -/
def listIncludes : List Char → List Char → Bool
  | [], pat => pat.isEmpty
  | a :: hay, pat => listStartsWith (a :: hay) pat || listIncludes hay pat

/-- JavaScript `s.replace(pat, '')` with a string pattern: remove the
first occurrence of `pat` from `s` (and only the first). -/
def removeFirst : List Char → List Char → List Char
  | [], _ => []
  | a :: s, pat =>
    if listStartsWith (a :: s) pat then List.drop pat.length (a :: s)
    else a :: removeFirst s pat

/-- JavaScript `s.trim()` on the character list. -/
def jsTrimList (l : List Char) : List Char :=
  ((l.dropWhile isJsWs).reverse.dropWhile isJsWs).reverse

/-- JavaScript `s.toLowerCase()` (ASCII fragment, as exercised by the
source's keyword and attribute strings). -/
def jsLower (s : String) : String :=
  ⟨s.toList.map Char.toLower⟩

/-- JavaScript `s.includes(pat)` on `String`. -/
def strIncludes (s pat : String) : Bool :=
  listIncludes s.toList pat.toList

/-- JavaScript `s.replace(pat, '')` on `String`. -/
def removeFirstStr (s pat : String) : String :=
  ⟨removeFirst s.toList pat.toList⟩

/-- JavaScript `s.trim()` on `String`. -/
def jsTrimStr (s : String) : String :=
  ⟨jsTrimList s.toList⟩

/-- JavaScript `s.substring(0, n)` on `String`. -/
def jsSubstring (n : Nat) (s : String) : String :=
  ⟨s.toList.take n⟩

/-!
## Option 2 — YouTube study mode (content.js)

`STUDY_KEYWORDS` and `BLOCK_KEYWORDS` are the two curated keyword lists;
`hasStudyKeyword` / `hasBlockKeyword` are the guarded matchers and
`shouldPlayVideo` the classifier (`true` = allow/play, `false` = block).
Title and description extraction (`getVideoTitle`, `getVideoDescription`)
is DOM plumbing and enters the embedding as the two string arguments.
-/

/-- The ALLOW (education-indicating) keyword list `STUDY_KEYWORDS` of
content.js, verbatim. -/
def STUDY_KEYWORDS : List String := [
  "lecture series", "class recording", "course material",
  "syllabus", "curriculum", "academic lecture",
  "concept explanation", "theory", "numericals",
  "problem solving", "worked examples", "solutions explained",
  "proof", "derivation", "formula", "equations", "lab experiment", "practical session", "simulation",
  "case study", "research methodology", "data interpretation",
  "statistical analysis", "regression", "classification",
  "probability", "bayes theorem", "linear algebra", "matrix", "vector", "calculus", "integration", "differentiation", "code walkthrough", "live coding",
  "debugging", "error fixing", "stack trace",
  "complexity analysis", "time complexity", "space complexity",
  "big o notation", "interview preparation",
  "university lecture", "college lecture",
  "nptel lecture", "iit lecture", "mit lecture",
  "stanford lecture", "harvard lecture",
  "semester exam", "internal assessment",
  "final exam review", "exam solutions", "exam discussion",
  "tutorial", "lecture", "course", "class", "learn", "education", "educational",
  "lesson", "training", "workshop", "seminar", "webinar", "guide", "instruction",
  "how to", "step by step", "beginners guide", "for beginners", "introduction to",
  "crash course", "full course", "complete course", "masterclass", "online course",
  "math", "mathematics", "algebra", "calculus", "geometry", "trigonometry", "statistics",
  "physics", "chemistry", "biology", "science", "geography", "history", "economics",
  "psychology", "sociology", "philosophy", "literature", "linguistics", "grammar",
  "vocabulary", "language learning", "foreign language",
  "programming", "coding", "software", "development", "computer science", "cs",
  "python", "java", "javascript", "typescript", "c++", "c#", "php", "ruby", "go", "rust",
  "html", "css", "react", "angular", "vue", "node.js", "express", "django", "flask",
  "database", "sql", "mongodb", "mysql", "postgresql",
  "algorithm", "data structure", "data structures", "oop", "object oriented",
  "machine learning", "ml", "artificial intelligence", "ai", "deep learning", "neural network",
  "data science", "data analysis", "big data", "analytics",
  "cybersecurity", "network security", "information security",
  "web development", "frontend", "backend", "full stack", "mobile development",
  "devops", "cloud", "aws", "azure", "google cloud", "docker", "kubernetes",
  "engineering", "mechanical", "civil", "electrical", "electronics", "robotics",
  "automation", "iot", "internet of things", "embedded", "arduino", "raspberry pi",
  "3d printing", "cad", "design", "architecture",
  "business", "management", "leadership", "marketing", "digital marketing", "seo",
  "finance", "accounting", "investment", "stock market", "trading", "cryptocurrency",
  "entrepreneurship", "startup", "project management", "agile", "scrum",
  "career", "job interview", "resume", "cv", "public speaking", "communication",
  "exam", "test", "quiz", "preparation", "competitive exam", "entrance exam",
  "certification", "certificate", "degree", "diploma", "mooc",
  "udemy", "coursera", "edx", "khan academy", "skillshare", "linkedin learning",
  "mit opencourseware", "stanford online", "harvard online", "nptel", "swayam",
  "school", "high school", "secondary school", "college", "university",
  "undergraduate", "graduate", "postgraduate", "phd", "research",
  "thesis", "dissertation", "paper", "publication", "journal",
  "quantum physics", "astronomy", "astrophysics", "cosmology",
  "genetics", "evolution", "microbiology", "organic chemistry", "inorganic chemistry",
  "physical chemistry", "thermodynamics", "electromagnetism", "optics",
  "programming interview", "coding interview", "leetcode", "hackerrank",
  "system design", "design pattern", "software architecture",
  "jee", "neet", "gate", "upsc", "ias", "ips", "cat", "mat", "xat",
  "cbse", "icse", "ncert", "board exam", "competitive",
  "iit jee", "medical entrance", "engineering entrance",
  "study with me", "pomodoro", "study technique", "study tips", "study method",
  "note taking", "mind mapping", "flashcards", "anki", "spaced repetition",
  "active recall", "feynman technique", "pomodoro technique",
  "english", "spanish", "french", "german", "chinese", "japanese", "korean",
  "hindi", "sanskrit", "tamil", "telugu", "malayalam", "kannada", "bengali",
  "marathi", "gujarati", "punjabi", "urdu"]

/-- The BLOCK (entertainment-indicating) keyword list `BLOCK_KEYWORDS` of
content.js, verbatim. -/
def BLOCK_KEYWORDS : List String := [
  "song", "songs", "music", "Mix", "Shorts", "shorts", "musical", "entertainment", "movie", "film", "cinema",
  "game", "games", "gaming", "playthrough", "walkthrough", "gameplay",
  "vlog", "vlogging", "daily vlog", "lifestyle", "fashion", "beauty", "makeup",
  "comedy", "funny", "joke", "prank", "challenge", "memes", "meme",
  "celebrities", "celebrity", "gossip", "rumor", "scandal",
  "sports", "football", "soccer", "basketball", "cricket", "tennis", "golf",
  "cooking", "recipe", "food", "restaurant", "travel", "vacation", "holiday",
  "shopping", "haul", "unboxing", "review", "product review",
  "asmr", "satisfying", "relaxing", "meditation", "sleep",
  "anime", "manga", "cartoon", "animation", "netflix", "hbo", "disney",
  "party", "nightlife", "club", "dance", "dancing",
  "dating", "relationship", "love", "romance",
  "horror", "scary", "thriller", "action", "adventure",
  "trailer", "teaser", "preview",
  "podcast", "talk show", "interview",
  "short film", "documentary", "series",
  "fortnite", "minecraft", "roblox", "valorant", "cod", "call of duty",
  "stream", "livestream", "twitch",
  "tiktok", "reels", "compilation", "highlights",
  "motivation", "inspirational", "self-help",
  "workout", "fitness", "gym", "exercise", "trending", "must watch",
  "you won’t believe", "shocking",
  "epic", "crazy", "insane",
  "watch till end", "emotional", "reaction video",
  "roasting", "exposed", "instagram", "snapchat", "whatsapp",
  "influencer", "creator", "yoga"]

/-- The pure matching condition used inside both keyword matchers:
some keyword of `keys` is, case-insensitively, a substring of `text`.
(This is the spec's notion of "the keyword set matches the text".) -/
def keywordMatches (keys : List String) (text : String) : Bool :=
  keys.any fun keyword => strIncludes (jsLower text) (jsLower keyword)

/-- content.js `hasStudyKeyword`: empty or whitespace-only text never
matches; otherwise scan `STUDY_KEYWORDS` for a case-insensitive
substring hit.  (The `catch` branch is unreachable in the embedding:
every operation is total.) -/
def hasStudyKeyword (text : String) : Bool :=
  if jsTrimList text.toList == [] then false
  else STUDY_KEYWORDS.any fun keyword => strIncludes (jsLower text) (jsLower keyword)

/-- content.js `hasBlockKeyword`: same shape as `hasStudyKeyword` but over
`BLOCK_KEYWORDS`. -/
def hasBlockKeyword (text : String) : Bool :=
  if jsTrimList text.toList == [] then false
  else BLOCK_KEYWORDS.any fun keyword => strIncludes (jsLower text) (jsLower keyword)

/-- content.js `shouldPlayVideo`, with the DOM extraction of title and
description factored out as the two arguments: block keywords dominate,
then study keywords allow, otherwise block. -/
def shouldPlayVideo (title description : String) : Bool :=
  if hasBlockKeyword title || hasBlockKeyword description then false
  else hasStudyKeyword title || hasStudyKeyword description

/-!
## Option 1 — URL reputation (background.js)
-/

/-- background.js `getRiskLabel`: map a risk score to a label via the
three closed ranges, anything else being "Unknown". -/
def getRiskLabel (riskScore : Int) : String :=
  if 0 ≤ riskScore ∧ riskScore ≤ 30 then "Safe"
  else if 31 ≤ riskScore ∧ riskScore ≤ 60 then "Suspicious"
  else if 61 ≤ riskScore ∧ riskScore ≤ 100 then "High Risk"
  else "Unknown"

/-- Tri-state outcome of the external Safe Browsing query, as seen by
`checkUrlReputation`: the fetch produced a match list with at least one
entry (carrying its threat type), an empty match list, or the
request/parse threw (carrying the error message). -/
inductive LookupOutcome where
  | threatFound (threatType : String)
  | noThreat
  | lookupFailed (message : String)

/-- The object `checkUrlReputation` resolves with (the `url` field, which
is just echoed back, is omitted). -/
structure ReputationResult where
  status : String
  threatType : String
  riskScore : Int
  error : Option String
deriving DecidableEq

/-- background.js `checkUrlReputation`, with the network call abstracted
into the tri-state `LookupOutcome`: a match yields status "Malicious"
and 40 risk points, no match yields "Safe" and 0, and the catch branch
yields status "Error", threat type "Unknown", 0 risk points and the
error message. -/
def checkUrlReputation : LookupOutcome → ReputationResult
  | .threatFound t => ⟨"Malicious", t, 40, none⟩
  | .noThreat => ⟨"Safe", "None", 0, none⟩
  | .lookupFailed msg => ⟨"Error", "Unknown", 0, some msg⟩

/-- The `data` object the background message listener sends back for a
`checkReputation` request (again omitting the echoed `url`). -/
structure ReputationResponse where
  status : String
  threatType : String
  riskScore : Int
  riskLabel : String
  error : Option String
deriving DecidableEq

/-- The `checkReputation` branch of the background message listener:
run `checkUrlReputation`, derive the label from the returned score with
`getRiskLabel`, and assemble the response (`error: result.error || null`). -/
def handleCheckReputation (outcome : LookupOutcome) : ReputationResponse :=
  let result := checkUrlReputation outcome
  ⟨result.status, result.threatType, result.riskScore,
    getRiskLabel result.riskScore, result.error⟩

/-!
## Option 4 — URL shortener detection (content.js)
-/

/-- The fixed shortener domain list `URL_SHORTENERS` of content.js,
verbatim. -/
def URL_SHORTENERS : List String := [
  "bit.ly", "tinyurl.com", "goo.gl", "ow.ly", "short.link",
  "t.co", "buff.ly", "adf.ly", "is.gd", "cli.gs",
  "tiny.cc", "u.to", "j.mp", "tr.im", "soo.gd",
  "rebrand.ly", "bl.ink", "shorturl.at", "cutt.ly", "s.id",
  "bitly.com", "shorturl.com", "miniurl.com", "snip.ly"]

/-- Result of `detectUrlShortener` (the echoed `url` field omitted). -/
structure ShortenerResult where
  isShortener : Bool
  domain : String
deriving DecidableEq

/-- content.js `detectUrlShortener`, with `window.location.hostname`
passed in: normalise with `hostname.replace('www.', '')` (JavaScript
`replace` with a string pattern removes the first occurrence) and test
exact equality against each member of `URL_SHORTENERS`. -/
def detectUrlShortener (hostname : String) : ShortenerResult :=
  let currentDomain := removeFirstStr hostname "www."
  ⟨URL_SHORTENERS.any fun shortener => currentDomain == shortener, currentDomain⟩

/-- Modelled from the spec (for comparison only, not from the source):
the spec's normalisation "strip a leading www. before comparison",
which removes "www." only when it is a prefix of the hostname. -/
def specStripLeadingWWW (h : String) : String :=
  if listStartsWith h.toList ("www.".toList) then ⟨h.toList.drop 4⟩ else h

/-- One entry of the `linksFound` array built by the `analyzeShortener`
branch of the content-script message listener. -/
structure ShortLink where
  url : String
  domain : String
  text : String
deriving DecidableEq

/-- The link-scanning loop of the `analyzeShortener` branch, with the DOM
walk abstracted: each anchor contributes its `href` and its
`textContent`, and `parseHost` is the browser URL parser
(`new URL(href).hostname`), `none` when the constructor throws (such a
link is skipped by the `catch`).  A link whose normalised domain is in
`URL_SHORTENERS` is pushed, in input order, with its text trimmed and
truncated to 50 characters. -/
def findShortenedLinks (parseHost : String → Option String) :
    List (String × String) → List ShortLink
  | [] => []
  | (href, txt) :: rest =>
    match parseHost href with
    | none => findShortenedLinks parseHost rest
    | some host =>
      let linkDomain := removeFirstStr host "www."
      if URL_SHORTENERS.any (fun shortener => linkDomain == shortener) then
        ⟨href, linkDomain, jsSubstring 50 (jsTrimStr txt)⟩ ::
          findShortenedLinks parseHost rest
      else findShortenedLinks parseHost rest

/-- What `findShortenedLinks` contributes for a single link: `some` entry
when the parsed, normalised domain is a shortener, `none` otherwise. -/
def linkEntry (parseHost : String → Option String) (link : String × String) :
    Option ShortLink :=
  match parseHost link.1 with
  | none => none
  | some host =>
    let linkDomain := removeFirstStr host "www."
    if URL_SHORTENERS.any (fun shortener => linkDomain == shortener) then
      some ⟨link.1, linkDomain, jsSubstring 50 (jsTrimStr link.2)⟩
    else none

/-!
## Option 3 — form security analysis (content.js)
-/

/-- content.js `getDomain`, with `window.location.hostname` passed as
`currentHost` and the browser URL parser as the oracle `parseHost`
(`none` when `new URL(url)` would throw, which the `catch` turns into
the current host). -/
def getDomain (url : String) (currentHost : String)
    (parseHost : String → Option String) : String :=
  if url == "" || url == "#" then currentHost
  else if listStartsWith url.toList ("/".toList) || !(strIncludes url "://") then
    currentHost
  else
    match parseHost url with
    | some host => host
    | none => currentHost

/-- A form field as the DOM hands it to the analyzer: an `<input>` element
with its `type`/`name`/`id` attributes, or some other element
(`textarea`, `select`, ...), which `form.querySelectorAll('input')`
does not return. -/
inductive FieldElem where
  | inputEl (ty name id : String)
  | textareaEl (name id : String)
  | selectEl (name id : String)
  | otherEl (tag name id : String)
deriving DecidableEq

/-- Is this field an `<input>` element? -/
def FieldElem.isInputEl : FieldElem → Bool
  | .inputEl _ _ _ => true
  | _ => false

/-- The result of `form.querySelectorAll('input')` over the form's
fields: the `(type, name, id)` of each `<input>`, in document order. -/
def collectInputs : List FieldElem → List (String × String × String)
  | [] => []
  | .inputEl ty name id :: rest => (ty, name, id) :: collectInputs rest
  | _ :: rest => collectInputs rest

/-- The payment keyword list `cardKeywords` of `isSensitiveInput`,
verbatim. -/
def CARD_KEYWORDS : List String :=
  ["card", "credit", "debit", "cvv", "cvc", "expiry"]

/-- content.js `isSensitiveInput` on the `(type, name, id)` attributes of
an `<input>` (missing `name`/`id` enter as `""`, matching
`input.name || ''`): password and email types are always sensitive,
otherwise a payment keyword in the lowercased name or id makes the
field sensitive. -/
def isSensitiveInput (ty name id : String) : Bool :=
  let t := jsLower ty
  let n := jsLower name
  let i := jsLower id
  if t == "password" then true
  else if t == "email" then true
  else CARD_KEYWORDS.any fun keyword =>
    strIncludes n keyword || strIncludes i keyword

/-- Result of `analyzeForm` (the `form` element reference omitted). -/
structure FormAnalysis where
  formDomain : String
  currentDomain : String
  sensitiveInputs : List (String × String × String)
  isSuspicious : Bool
deriving DecidableEq

/-- content.js `analyzeForm`, with the DOM abstracted: `action` is
`form.action || ''`, `fields` the form's elements in document order,
`currentHost` is `window.location.hostname` and `parseHost` the browser
URL parser.  Suspicious iff there is at least one sensitive `<input>`
and the resolved form domain differs from the current host. -/
def analyzeForm (action : String) (fields : List FieldElem)
    (currentHost : String) (parseHost : String → Option String) :
    FormAnalysis :=
  let formDomain := getDomain action currentHost parseHost
  let inputs := collectInputs fields
  let sensitiveInputs := inputs.filter fun f => isSensitiveInput f.1 f.2.1 f.2.2
  let isSusp := decide (0 < sensitiveInputs.length) && !(formDomain == currentHost)
  ⟨formDomain, currentHost, sensitiveInputs, isSusp⟩

/-- A concrete URL-parser oracle used by concrete evaluations: it knows
one absolute URL and rejects everything else. -/
def demoParse (u : String) : Option String :=
  if u == "https://evil.com/submit" then some "evil.com" else none

/-- A concrete URL-parser oracle for the shortener-link evaluations. -/
def demoParseShort (u : String) : Option String :=
  if u == "https://bit.ly/abc" then some "bit.ly" else none

/-!
## Helper lemmas
-/

/-- Every character of an anchored match occurs in the haystack. -/
theorem listStartsWith_mem (pat : List Char) :
    ∀ hay : List Char, listStartsWith hay pat = true → ∀ c ∈ pat, c ∈ hay := by
  induction pat with
  | nil =>
    intro hay _ c hc
    cases hc
  | cons b bs ih =>
    intro hay h c hc
    cases hay with
    | nil => simp [listStartsWith] at h
    | cons a hay =>
      simp only [listStartsWith, Bool.and_eq_true, beq_iff_eq] at h
      cases hc with
      | head =>
        rw [← h.1]
        exact List.Mem.head hay
      | tail _ hc =>
        exact List.Mem.tail a (ih hay h.2 c hc)

/-- Every character of a substring occurs in the haystack. -/
theorem listIncludes_mem :
    ∀ hay pat : List Char, listIncludes hay pat = true → ∀ c ∈ pat, c ∈ hay := by
  intro hay
  induction hay with
  | nil =>
    intro pat h c hc
    simp only [listIncludes, List.isEmpty_iff] at h
    subst h
    cases hc
  | cons a hay ih =>
    intro pat h c hc
    simp only [listIncludes, Bool.or_eq_true] at h
    rcases h with h | h
    · exact listStartsWith_mem pat (a :: hay) h c hc
    · exact List.Mem.tail a (ih pat h c hc)

/-- If `dropWhile p` exhausts a list, every element satisfied `p`. -/
theorem dropWhile_nil_sat (p : Char → Bool) :
    ∀ l : List Char, l.dropWhile p = [] → ∀ c ∈ l, p c = true := by
  intro l
  induction l with
  | nil =>
    intro _ c hc
    cases hc
  | cons a l ih =>
    intro h c hc
    by_cases hpa : p a = true
    · have hrest : l.dropWhile p = [] := by
        rwa [List.dropWhile_cons, if_pos hpa] at h
      cases hc with
      | head => exact hpa
      | tail _ hc => exact ih hrest c hc
    · rw [List.dropWhile_cons, if_neg hpa] at h
      exact absurd h (by simp)

/-- Every element kept by `takeWhile p` satisfies `p`. -/
theorem takeWhile_sat (p : Char → Bool) :
    ∀ l : List Char, ∀ c ∈ l.takeWhile p, p c = true := by
  intro l
  induction l with
  | nil =>
    intro c hc
    simp [List.takeWhile] at hc
  | cons a l ih =>
    intro c hc
    rw [List.takeWhile_cons] at hc
    by_cases hpa : p a = true
    · rw [if_pos hpa] at hc
      cases hc with
      | head => exact hpa
      | tail _ hc => exact ih c hc
    · rw [if_neg hpa] at hc
      cases hc

/-- A list whose embedded `trim` is empty is all whitespace. -/
theorem jsTrimList_nil_ws {l : List Char} (h : jsTrimList l = []) :
    ∀ c ∈ l, isJsWs c = true := by
  unfold jsTrimList at h
  have h1 : (l.dropWhile isJsWs).reverse.dropWhile isJsWs = [] :=
    List.reverse_eq_nil_iff.mp h
  have h2 : ∀ c ∈ l.dropWhile isJsWs, isJsWs c = true := fun c hc =>
    dropWhile_nil_sat isJsWs _ h1 c (List.mem_reverse.mpr hc)
  intro c hc
  rw [← List.takeWhile_append_dropWhile (p := isJsWs) (l := l)] at hc
  rcases List.mem_append.mp hc with hc | hc
  · exact takeWhile_sat isJsWs l c hc
  · exact h2 c hc

/-- ASCII lowercasing fixes the whitespace characters. -/
theorem isJsWs_toLower {c : Char} (h : isJsWs c = true) :
    Char.toLower c = c := by
  simp only [isJsWs, Bool.or_eq_true, beq_iff_eq] at h
  rcases h with ((((rfl | rfl) | rfl) | rfl) | rfl) | rfl <;> decide

/-- A keyword list in which every keyword has a non-whitespace character
cannot match a string whose embedded `trim` is empty. -/
theorem keywordMatches_of_trim_nil (keys : List String) (t : String)
    (hnz : ∀ k ∈ keys, ((jsLower k).toList.any fun c => !isJsWs c) = true)
    (htrim : jsTrimList t.toList = []) :
    keywordMatches keys t = false := by
  cases hm : keywordMatches keys t with
  | false => rfl
  | true =>
    exfalso
    obtain ⟨k, hk, hinc⟩ := List.any_eq_true.mp hm
    obtain ⟨c, hc, hcnw⟩ := List.any_eq_true.mp (hnz k hk)
    have hcin : c ∈ (jsLower t).toList :=
      listIncludes_mem (jsLower t).toList (jsLower k).toList hinc c hc
    have hcin2 : c ∈ t.toList.map Char.toLower := hcin
    obtain ⟨c0, hc0, hlow⟩ := List.mem_map.mp hcin2
    have hw : isJsWs c0 = true := jsTrimList_nil_ws htrim c0 hc0
    rw [← hlow, isJsWs_toLower hw, hw] at hcnw
    exact absurd hcnw (by simp)

set_option maxRecDepth 8000 in
/-- Every block keyword has a non-whitespace character (after
lowercasing). -/
theorem block_keywords_have_ink :
    ∀ k ∈ BLOCK_KEYWORDS, ((jsLower k).toList.any fun c => !isJsWs c) = true := by
  decide

/-- The pure block-match condition forces the guarded matcher to fire:
a matching text cannot be empty or whitespace-only. -/
theorem hasBlockKeyword_of_match {t : String}
    (hm : keywordMatches BLOCK_KEYWORDS t = true) :
    hasBlockKeyword t = true := by
  unfold hasBlockKeyword
  split
  next hcond =>
    have htrim : jsTrimList t.toList = [] := by simpa using hcond
    have hfalse := keywordMatches_of_trim_nil BLOCK_KEYWORDS t block_keywords_have_ink htrim
    rw [hm] at hfalse
    exact absurd hfalse (by simp)
  next hcond =>
    exact hm

/-- The guarded block matcher never fires when the pure condition is
false. -/
theorem hasBlockKeyword_le {t : String}
    (h : keywordMatches BLOCK_KEYWORDS t = false) :
    hasBlockKeyword t = false := by
  unfold hasBlockKeyword
  split
  next => rfl
  next => exact h

/-- The guarded study matcher never fires when the pure condition is
false. -/
theorem hasStudyKeyword_le {t : String}
    (h : keywordMatches STUDY_KEYWORDS t = false) :
    hasStudyKeyword t = false := by
  unfold hasStudyKeyword
  split
  next => rfl
  next => exact h

/-- Projection lemma for `analyzeForm`. -/
theorem analyzeForm_formDomain (action : String) (fields : List FieldElem)
    (currentHost : String) (parseHost : String → Option String) :
    (analyzeForm action fields currentHost parseHost).formDomain =
      getDomain action currentHost parseHost := rfl

/-- Projection lemma for `analyzeForm`. -/
theorem analyzeForm_sensitiveInputs (action : String) (fields : List FieldElem)
    (currentHost : String) (parseHost : String → Option String) :
    (analyzeForm action fields currentHost parseHost).sensitiveInputs =
      (collectInputs fields).filter fun f => isSensitiveInput f.1 f.2.1 f.2.2 := rfl

/-- Projection lemma for `analyzeForm`. -/
theorem analyzeForm_isSuspicious (action : String) (fields : List FieldElem)
    (currentHost : String) (parseHost : String → Option String) :
    (analyzeForm action fields currentHost parseHost).isSuspicious =
      (decide (0 < (analyzeForm action fields currentHost parseHost).sensitiveInputs.length) &&
        !((analyzeForm action fields currentHost parseHost).formDomain == currentHost)) := rfl

/-- A form with no `<input>` field contributes no collected inputs. -/
theorem collectInputs_eq_nil :
    ∀ fields : List FieldElem, (∀ f ∈ fields, f.isInputEl = false) →
      collectInputs fields = [] := by
  intro fields
  induction fields with
  | nil =>
    intro _
    rfl
  | cons f rest ih =>
    intro h
    have hrest : collectInputs rest = [] :=
      ih fun g hg => h g (List.Mem.tail f hg)
    cases f with
    | inputEl ty name id =>
      exact absurd (h _ (List.Mem.head rest)) (by simp [FieldElem.isInputEl])
    | textareaEl name id => exact hrest
    | selectEl name id => exact hrest
    | otherEl tag name id => exact hrest

/-!
## Claim theorems
-/

/-- C3: any ContentItem whose title or description contains,
case-insensitively, some BLOCK keyword as a substring is classified
Block (`shouldPlayVideo` returns `false`), even when ALLOW (study)
keywords are also present: the block check runs first and dominates. -/
theorem classifier_block_precedence (title description : String)
    (h : keywordMatches BLOCK_KEYWORDS title = true ∨
        keywordMatches BLOCK_KEYWORDS description = true) :
    shouldPlayVideo title description = false := by
  unfold shouldPlayVideo
  rcases h with h | h
  · rw [hasBlockKeyword_of_match h]
    rfl
  · rw [hasBlockKeyword_of_match h, Bool.or_true]
    rfl

/-- Witness for C3 at a concrete item: "music theory" contains the BLOCK
keyword "music" and the ALLOW keyword "theory", and is blocked. -/
theorem classifier_block_precedence_witness :
    keywordMatches STUDY_KEYWORDS "music theory" = true ∧
    shouldPlayVideo "music theory" "" = false :=
  ⟨by decide, classifier_block_precedence "music theory" "" (Or.inl (by decide))⟩

/-- C4: a ContentItem in which neither the BLOCK nor the ALLOW keyword
set matches the title or the description is classified Block
(default-deny). -/
theorem classifier_default_deny (title description : String)
    (hbt : keywordMatches BLOCK_KEYWORDS title = false)
    (hbd : keywordMatches BLOCK_KEYWORDS description = false)
    (hst : keywordMatches STUDY_KEYWORDS title = false)
    (hsd : keywordMatches STUDY_KEYWORDS description = false) :
    shouldPlayVideo title description = false := by
  unfold shouldPlayVideo
  rw [hasBlockKeyword_le hbt, hasBlockKeyword_le hbd,
    hasStudyKeyword_le hst, hasStudyKeyword_le hsd]
  rfl

set_option maxRecDepth 8000 in
/-- Witness for C4 at a whitespace-only title and empty description:
neither keyword set matches, and the item is blocked. -/
theorem classifier_default_deny_witness :
    shouldPlayVideo "   " "" = false :=
  classifier_default_deny "   " "" (by decide) (by decide) (by decide) (by decide)

/-- C5: the score-to-label mapping of `getRiskLabel` is the total,
non-overlapping partition [0,30] ↦ Safe, [31,60] ↦ Suspicious,
[61,100] ↦ High Risk, and everything outside 0..100 ↦ Unknown. -/
theorem risk_label_partition (s : Int) :
    (0 ≤ s → s ≤ 30 → getRiskLabel s = "Safe") ∧
    (31 ≤ s → s ≤ 60 → getRiskLabel s = "Suspicious") ∧
    (61 ≤ s → s ≤ 100 → getRiskLabel s = "High Risk") ∧
    (s < 0 ∨ 100 < s → getRiskLabel s = "Unknown") := by
  unfold getRiskLabel
  refine ⟨fun h1 h2 => ?_, fun h1 h2 => ?_, fun h1 h2 => ?_, fun h => ?_⟩
  · rw [if_pos ⟨h1, h2⟩]
  · rw [if_neg (by omega), if_pos ⟨h1, h2⟩]
  · rw [if_neg (by omega), if_neg (by omega), if_pos ⟨h1, h2⟩]
  · rw [if_neg (by omega), if_neg (by omega), if_neg (by omega)]

/-- Witness for C5 at the boundary scores named by the spec. -/
theorem risk_label_partition_witness :
    getRiskLabel 0 = "Safe" ∧ getRiskLabel 30 = "Safe" ∧
    getRiskLabel 31 = "Suspicious" ∧ getRiskLabel 60 = "Suspicious" ∧
    getRiskLabel 61 = "High Risk" ∧ getRiskLabel 100 = "High Risk" ∧
    getRiskLabel (-1) = "Unknown" ∧ getRiskLabel 101 = "Unknown" :=
  ⟨(risk_label_partition 0).1 (by decide) (by decide),
    (risk_label_partition 30).1 (by decide) (by decide),
    (risk_label_partition 31).2.1 (by decide) (by decide),
    (risk_label_partition 60).2.1 (by decide) (by decide),
    (risk_label_partition 61).2.2.1 (by decide) (by decide),
    (risk_label_partition 100).2.2.1 (by decide) (by decide),
    (risk_label_partition (-1)).2.2.2 (Or.inl (by decide)),
    (risk_label_partition 101).2.2.2 (Or.inr (by decide))⟩

/-- C6: a matched threat verdict is assessed at the flat score 40
(whatever the threat kind) and labelled Suspicious; an unmatched one at
score 0, labelled Safe. -/
theorem assess_risk_values (t : String) :
    (handleCheckReputation (LookupOutcome.threatFound t)).riskScore = 40 ∧
    (handleCheckReputation (LookupOutcome.threatFound t)).riskLabel = "Suspicious" ∧
    (handleCheckReputation LookupOutcome.noThreat).riskScore = 0 ∧
    (handleCheckReputation LookupOutcome.noThreat).riskLabel = "Safe" :=
  ⟨rfl, rfl, rfl, rfl⟩

/-- C1 counterexample: on a failed lookup the response carries the risk
label "Safe" — not "Unknown" — so the claim "label = Unknown, never
Safe" is false on the code. -/
theorem lookup_failure_label_cex :
    (handleCheckReputation (LookupOutcome.lookupFailed "network error")).riskLabel = "Safe" ∧
    (handleCheckReputation (LookupOutcome.lookupFailed "network error")).riskLabel ≠ "Unknown" :=
  ⟨rfl, by decide⟩

/-- C1 amended: on a failed lookup the response has score 0, status
"Error" and threat type "Unknown", with the failure message attached;
its risk label, computed from the score, is "Safe" — the same label as a
confirmed-safe result — so failures are distinguished by the status and
error fields, not by the label. -/
theorem lookup_failure_response (msg : String) :
    handleCheckReputation (LookupOutcome.lookupFailed msg) =
      ⟨"Error", "Unknown", 0, "Safe", some msg⟩ := rfl

/-- C2 counterexample: the hostname "bit.www.ly" has no leading "www."
(the spec normalisation leaves it unchanged and it is not in the set),
yet `detectUrlShortener` reports it as a shortener, because JavaScript
`replace('www.', '')` removes the first occurrence anywhere. -/
theorem shortener_normalization_cex :
    ¬ ((detectUrlShortener "bit.www.ly").isShortener = true ↔
        URL_SHORTENERS.contains (specStripLeadingWWW "bit.www.ly") = true) := by
  decide

/-- C2 amended: `isShortener(h)` is true iff `h` with the FIRST
occurrence of "www." removed (anywhere in the hostname, not only as a
leading prefix) is exactly equal to a member of the shortener set; the
three named examples hold. -/
theorem shortener_exact_match (h : String) :
    ((detectUrlShortener h).isShortener = true ↔
      removeFirstStr h "www." ∈ URL_SHORTENERS) ∧
    (detectUrlShortener "bit.ly").isShortener = true ∧
    (detectUrlShortener "www.bit.ly").isShortener = true ∧
    (detectUrlShortener "notbit.ly").isShortener = false := by
  refine ⟨?_, by decide, by decide, by decide⟩
  show (URL_SHORTENERS.any fun shortener => removeFirstStr h "www." == shortener) = true ↔ _
  rw [List.any_eq_true]
  constructor
  · rintro ⟨s, hs, hbeq⟩
    rwa [beq_iff_eq.mp hbeq]
  · intro hmem
    exact ⟨removeFirstStr h "www.", hmem, beq_self_eq_true _⟩

/-- Witness for C2's amended statement at a concrete hostname. -/
theorem shortener_exact_match_witness :
    (detectUrlShortener "www.bit.ly").isShortener = true :=
  (shortener_exact_match "www.bit.ly").2.2.1

/-- C7: `analyzeForm` flags a form iff it has at least one sensitive
input AND the resolved target domain differs from the current host; and
an empty, fragment, relative or unparseable action URL resolves to the
current host (so it is never cross-domain). -/
theorem form_suspicion_rule :
    (∀ (action : String) (fields : List FieldElem) (currentHost : String)
        (parseHost : String → Option String),
        (analyzeForm action fields currentHost parseHost).isSuspicious = true ↔
          ((analyzeForm action fields currentHost parseHost).sensitiveInputs ≠ [] ∧
            getDomain action currentHost parseHost ≠ currentHost)) ∧
    (∀ (url currentHost : String) (parseHost : String → Option String),
        url = "" ∨ url = "#" ∨ listStartsWith url.toList ("/".toList) = true ∨
          strIncludes url "://" = false ∨ parseHost url = none →
        getDomain url currentHost parseHost = currentHost) := by
  constructor
  · intro action fields currentHost parseHost
    rw [analyzeForm_isSuspicious, Bool.and_eq_true, decide_eq_true_eq,
      Bool.not_eq_true', beq_eq_false_iff_ne, analyzeForm_formDomain]
    constructor
    · rintro ⟨h1, h2⟩
      exact ⟨List.length_pos.mp h1, h2⟩
    · rintro ⟨h1, h2⟩
      exact ⟨List.length_pos.mpr h1, h2⟩
  · intro url currentHost parseHost h
    unfold getDomain
    by_cases h0 : (url == "" || url == "#") = true
    · rw [if_pos h0]
    · rw [if_neg h0]
      rcases h with rfl | rfl | h | h | h
      · exact absurd (by decide) h0
      · exact absurd (by decide) h0
      · rw [if_pos (show (listStartsWith url.toList ("/".toList) ||
          !(strIncludes url "://")) = true by rw [h]; rfl)]
      · rw [if_pos (show (listStartsWith url.toList ("/".toList) ||
          !(strIncludes url "://")) = true by rw [h, Bool.not_false, Bool.or_true])]
      · by_cases h1 : (listStartsWith url.toList ("/".toList) ||
            !(strIncludes url "://")) = true
        · rw [if_pos h1]
        · rw [if_neg h1, h]

/-- Witness for C7: the spec's own example — a password form posting to
"https://evil.com/submit" from "bank.com" is flagged, and the relative
action "/submit" resolves to "bank.com". -/
theorem form_suspicion_rule_witness :
    (analyzeForm "https://evil.com/submit" [FieldElem.inputEl "password" "pwd" ""]
      "bank.com" demoParse).isSuspicious = true ∧
    getDomain "/submit" "bank.com" demoParse = "bank.com" :=
  ⟨(form_suspicion_rule.1 "https://evil.com/submit"
      [FieldElem.inputEl "password" "pwd" ""] "bank.com" demoParse).mpr (by decide),
    form_suspicion_rule.2 "/submit" "bank.com" demoParse
      (Or.inr (Or.inr (Or.inl (by decide))))⟩

/-- C8: a field is sensitive iff its type is password or email, or its
name or id contains (case-insensitively, as a substring) one of the
payment keywords card, credit, debit, cvv, cvc, expiry. -/
theorem sensitive_field_rule (ty name id : String) :
    isSensitiveInput ty name id = true ↔
      (jsLower ty = "password" ∨ jsLower ty = "email" ∨
        ∃ k ∈ CARD_KEYWORDS,
          strIncludes (jsLower name) k = true ∨ strIncludes (jsLower id) k = true) := by
  show (if jsLower ty == "password" then true
      else if jsLower ty == "email" then true
      else CARD_KEYWORDS.any fun keyword =>
        strIncludes (jsLower name) keyword || strIncludes (jsLower id) keyword) = true ↔ _
  split
  next hty => exact iff_of_true rfl (Or.inl (by rwa [beq_iff_eq] at hty))
  next hty =>
    split
    next hty2 => exact iff_of_true rfl (Or.inr (Or.inl (by rwa [beq_iff_eq] at hty2)))
    next hty2 =>
      rw [List.any_eq_true]
      constructor
      · rintro ⟨k, hk, hor⟩
        simp only [Bool.or_eq_true] at hor
        exact Or.inr (Or.inr ⟨k, hk, hor⟩)
      · rintro (hp | he | ⟨k, hk, hor⟩)
        · exact absurd (beq_iff_eq.mpr hp) hty
        · exact absurd (beq_iff_eq.mpr he) hty2
        · exact ⟨k, hk, by simp only [Bool.or_eq_true]; exact hor⟩

/-- Witness for C8: a plain text input named "cardNumber" is sensitive
through the payment keyword "card". -/
theorem sensitive_field_rule_witness :
    isSensitiveInput "text" "cardNumber" "" = true :=
  (sensitive_field_rule "text" "cardNumber" "").mpr
    (Or.inr (Or.inr ⟨"card", by decide, Or.inl (by decide)⟩))

/-- C9: the shortener link scan returns exactly the matching entries, as
the order-preserving, non-deduplicating `filterMap` of its per-link
selector; a duplicated matching link appears twice in the output. -/
theorem find_shortened_links_exact :
    (∀ (parseHost : String → Option String) (links : List (String × String)),
        findShortenedLinks parseHost links = links.filterMap (linkEntry parseHost)) ∧
    findShortenedLinks demoParseShort
        [("https://bit.ly/abc", "promo"), ("https://bit.ly/abc", "promo")] =
      [⟨"https://bit.ly/abc", "bit.ly", "promo"⟩,
        ⟨"https://bit.ly/abc", "bit.ly", "promo"⟩] := by
  refine ⟨?_, by decide⟩
  intro parseHost links
  induction links with
  | nil => rfl
  | cons l rest ih =>
    obtain ⟨href, txt⟩ := l
    cases hp : parseHost href with
    | none => simp [findShortenedLinks, linkEntry, List.filterMap_cons, hp, ih]
    | some host =>
      by_cases hs :
          (URL_SHORTENERS.any fun shortener => removeFirstStr host "www." == shortener) = true
      · simp [findShortenedLinks, linkEntry, List.filterMap_cons, hp, hs, ih]
      · simp [findShortenedLinks, linkEntry, List.filterMap_cons, hp, hs, ih]

/-- C10: `analyzeForm` collects sensitive fields only from `<input>`
elements; a form whose fields are all textareas, selects or other
elements has no sensitive inputs and is never suspicious. -/
theorem analyze_form_inputs_only (action : String) (fields : List FieldElem)
    (currentHost : String) (parseHost : String → Option String)
    (h : ∀ f ∈ fields, f.isInputEl = false) :
    (analyzeForm action fields currentHost parseHost).sensitiveInputs = [] ∧
    (analyzeForm action fields currentHost parseHost).isSuspicious = false := by
  have hc := collectInputs_eq_nil fields h
  constructor
  · rw [analyzeForm_sensitiveInputs, hc]
    rfl
  · rw [analyzeForm_isSuspicious, analyzeForm_sensitiveInputs, hc]
    rfl

/-- Witness for C10: a cross-domain form whose only fields are a textarea
and a select with payment-keyword names is still not suspicious. -/
theorem analyze_form_inputs_only_witness :
    (analyzeForm "https://evil.com/submit"
      [FieldElem.textareaEl "cardnumber" "card", FieldElem.selectEl "credit" ""]
      "bank.com" demoParse).isSuspicious = false :=
  (analyze_form_inputs_only "https://evil.com/submit"
    [FieldElem.textareaEl "cardnumber" "card", FieldElem.selectEl "credit" ""]
    "bank.com" demoParse (by decide)).2

end WebSec
